import Mathlib

/-!
Verification of the HarmonyHub client orchestration layer
(`MusicGeneratorService.getFileUrl`, `MusicGeneratorPage.loadAudio`,
`createAudioPlayer`, `tryNativeAudioFallback`, `showAudioErrorToast`,
`sendChatMessage`) against its natural-language specification.

The TypeScript component is shallowly embedded: component fields become a
`PageState` record, asynchronous callbacks become functions applied to an
explicit outcome value, and observable side effects (fetches, toasts,
player construction and teardown, HTTP chat requests) are collected in an
`Effect` list.  Strings manipulated character-wise by the URL resolver are
modelled as `List Char`; the page-level strings stay `String`.

Two revisions of the music-generator page exist among the sources: the
current one (with the empty-URL guard, GET verification and the
`tryNativeAudioFallback` method) and an older one whose `onplayerror`
handler raises the terminal error toast directly.  The older revision's
error handlers are embedded as `onPlayerEventV3` / `showAudioErrorToastV3`.
-/

/-! ### Character-list string primitives (JS `startsWith`, `endsWith`, `includes`, `trim`) -/

/-- JS `s.startsWith(p)` on character lists: `startsWithL s p` is true iff
`p` is an initial segment of `s`. -/
def startsWithL : List Char → List Char → Bool
  | _, [] => true
  | [], _ :: _ => false
  | b :: ss, a :: ps => a == b && startsWithL ss ps

/-- JS `s.endsWith(p)` on character lists. -/
def endsWithL (s p : List Char) : Bool :=
  startsWithL s.reverse p.reverse

/-- JS `s.includes(p)` on character lists. -/
def listContainsL : List Char → List Char → Bool
  | [], p => startsWithL [] p
  | c :: t, p => startsWithL (c :: t) p || listContainsL t p

/-- JS `s.trim()` on character lists: drop leading and trailing whitespace. -/
def trimL (s : List Char) : List Char :=
  ((s.dropWhile Char.isWhitespace).reverse.dropWhile Char.isWhitespace).reverse

/-- Number of adjacent `'/','/'` pairs in a character list; a URL "contains
no double slash other than the scheme separator" iff this count is 1 and the
URL starts with `http://`. -/
def adjSlashCount : List Char → Nat
  | a :: b :: rest => (if a = '/' ∧ b = '/' then 1 else 0) + adjSlashCount (b :: rest)
  | _ => 0

/-! ### UrlResolver: `MusicGeneratorService.getFileUrl` -/

/-- `MusicGeneratorService.getFileUrl`, translated to character lists.
Mirrors the TypeScript: empty reference returns the empty string; a
reference starting with `"http"` is returned unchanged; otherwise the
reference is prefixed with `'/'` when missing and appended to the API base
origin after stripping a trailing `'/'` from it. -/
def getFileUrlL (apiUrl relativeUrl : List Char) : List Char :=
  if relativeUrl = [] then []
  else if startsWithL relativeUrl "http".toList then relativeUrl
  else
    let normalizedRelativeUrl :=
      if startsWithL relativeUrl "/".toList then relativeUrl else '/' :: relativeUrl
    let normalizedApiUrl :=
      if endsWithL apiUrl "/".toList then apiUrl.dropLast else apiUrl
    normalizedApiUrl ++ normalizedRelativeUrl

/-- The configured base origin (`environment.musicGeneratorApiUrl`
defaulting to `http://localhost:8000`). -/
def apiUrl : String := "http://localhost:8000"

/-- `getFileUrl` at the `String` level, as consumed by the page. -/
def getFileUrl (relativeUrl : String) : String :=
  ⟨getFileUrlL apiUrl.toList relativeUrl.toList⟩

/-! ### Page state and observable effects -/

/-- The mutable fields of `MusicGeneratorPage` relevant to playback and
chat.  A Howl player handle is identified by the source URL it was built
from. -/
structure PageState where
  audioPlayer : Option String
  isPlaying : Bool
  chatHistory : List (String × String)
  chatMessage : String
deriving DecidableEq, Repr

/-- Field initializers of `MusicGeneratorPage`: no player, not playing,
empty chat history, empty chat input. -/
def initialState : PageState :=
  { audioPlayer := none, isPlaying := false, chatHistory := [], chatMessage := "" }

/-- Observable side effects of the page: verification fetches, player
stop/unload/construction, native-audio fallback construction, toasts
(the danger toast carries the Download-MIDI recovery button), and chat
HTTP requests. -/
inductive Effect where
  | fetchIssued (url : String)
  | playerStop
  | playerUnload
  | playerCreated (url : String)
  | nativeAudioCreated (url : String)
  | toastSuccess (msg : String)
  | toastWarning (msg : String)
  | toastDangerWithMidiDownload (msg : String)
  | warnNotAudio
  | warnTooSmall
  | chatRequestSent (msg : String)
deriving DecidableEq, Repr

/-- Outcome of the verification `fetch(fullUrl, {method: 'GET'})`: either
the promise rejects (network error) or a response arrives with its `ok`
flag and the declared content type and length headers. -/
inductive FetchOutcome where
  | networkError
  | response (ok : Bool) (contentType : Option String) (contentLength : Option Nat)
deriving DecidableEq, Repr

/-- Howl player callbacks registered by `createAudioPlayer`. -/
inductive PlayerEvent where
  | onend
  | onload
  | onloaderror
  | onplayerror
deriving DecidableEq, Repr

/-- Events on the native `Audio` element created by the fallback path. -/
inductive NativeAudioEvent where
  | canplaythroughPlayOk
  | canplaythroughPlayErr
  | onerror
deriving DecidableEq, Repr

/-- Outcome of the `/chat` HTTP call. -/
inductive ChatOutcome where
  | success (history : List (String × String))
  | failure
deriving DecidableEq, Repr

/-! ### Playback path (current page revision) -/

/-- `showAudioErrorToast`: the terminal danger toast offering the MIDI
download as recovery action. -/
def showAudioErrorToast : List Effect :=
  [Effect.toastDangerWithMidiDownload
    "Unable to play audio. This may be due to browser MP3 support or network issues. You can download the MIDI file instead."]

/-- `createAudioPlayer`: constructs the Howl instance bound to the URL and
stores it in `audioPlayer`. -/
def createAudioPlayer (s : PageState) (fullUrl : String) : PageState × List Effect :=
  ({ s with audioPlayer := some fullUrl }, [Effect.playerCreated fullUrl])

/-- Body of the verification `then` branch once `response.ok` holds:
non-fatal content-type and content-length warnings, then player
construction, then the success toast. -/
def loadAudioVerified (s : PageState) (fullUrl : String)
    (contentType : Option String) (contentLength : Option Nat) : PageState × List Effect :=
  let warn1 :=
    match contentType with
    | none => [Effect.warnNotAudio]
    | some ct =>
        if !listContainsL ct.toList "audio".toList && !listContainsL ct.toList "mpeg".toList
        then [Effect.warnNotAudio] else []
  let warn2 :=
    match contentLength with
    | none => [Effect.warnTooSmall]
    | some n => if n < 1000 then [Effect.warnTooSmall] else []
  let r := createAudioPlayer s fullUrl
  (r.1, warn1 ++ warn2 ++ r.2 ++ [Effect.toastSuccess "Audio file found. Preparing playback..."])

/-- Continuation of `loadAudio` once the verification fetch settles: a
rejected promise or a non-`ok` response reaches the `catch` and raises the
terminal error toast; an `ok` response proceeds to player construction. -/
def loadAudioOnFetch (s : PageState) (fullUrl : String) (outcome : FetchOutcome) :
    PageState × List Effect :=
  match outcome with
  | .networkError => (s, showAudioErrorToast)
  | .response ok ct cl =>
      if ok then loadAudioVerified s fullUrl ct cl
      else (s, showAudioErrorToast)

/-- Synchronous part of `loadAudio`: the empty-URL guard, teardown of any
existing player, and issuing the verification fetch. -/
def loadAudioSync (s : PageState) (mp3Url : String) : PageState × List Effect :=
  if mp3Url = "" then (s, showAudioErrorToast)
  else
    let r :=
      match s.audioPlayer with
      | some _ => ({ s with audioPlayer := none }, [Effect.playerStop, Effect.playerUnload])
      | none => (s, ([] : List Effect))
    (r.1, r.2 ++ [Effect.fetchIssued (getFileUrl mp3Url)])

/-- `loadAudio` for a playback start whose verification fetch settles with
`outcome`: the synchronous part followed by the fetch continuation. -/
def loadAudio (s : PageState) (mp3Url : String) (outcome : FetchOutcome) :
    PageState × List Effect :=
  if mp3Url = "" then (s, showAudioErrorToast)
  else
    let r1 := loadAudioSync s mp3Url
    let r2 := loadAudioOnFetch r1.1 (getFileUrl mp3Url) outcome
    (r2.1, r1.2 ++ r2.2)

/-- `tryNativeAudioFallback`: creates a native `Audio` element bound to the
URL.  The Howl handle in `audioPlayer` is not touched. -/
def tryNativeAudioFallback (s : PageState) (fullUrl : String) : PageState × List Effect :=
  (s, [Effect.nativeAudioCreated fullUrl])

/-- The Howl callbacks registered by `createAudioPlayer` in the current
page revision: `onend` clears `isPlaying`; `onload` raises the success
toast; `onloaderror` raises a warning toast and enters the native fallback;
`onplayerror` enters the native fallback. -/
def onPlayerEvent (s : PageState) (fullUrl : String) (e : PlayerEvent) :
    PageState × List Effect :=
  match e with
  | .onend => ({ s with isPlaying := false }, [])
  | .onload => (s, [Effect.toastSuccess "Audio loaded successfully. Press play to listen."])
  | .onloaderror =>
      let r := tryNativeAudioFallback s fullUrl
      (r.1, Effect.toastWarning "Error loading audio. Trying alternative method..." :: r.2)
  | .onplayerror => tryNativeAudioFallback s fullUrl

/-- Listeners attached to the native fallback `Audio` element:
`canplaythrough` plays it (setting `isPlaying` on success, raising the
terminal toast if `play()` rejects); `error` raises the terminal toast. -/
def onNativeAudioEvent (s : PageState) (e : NativeAudioEvent) : PageState × List Effect :=
  match e with
  | .canplaythroughPlayOk => ({ s with isPlaying := true }, [])
  | .canplaythroughPlayErr => (s, showAudioErrorToast)
  | .onerror => (s, showAudioErrorToast)

/-! ### Playback error handlers of the older page revision -/

/-- `showAudioErrorToast` of the older page revision (same terminal danger
toast with the Download-MIDI button, different wording). -/
def showAudioErrorToastV3 : List Effect :=
  [Effect.toastDangerWithMidiDownload
    "Unable to play audio. Your browser may not support MP3 playback or there might be a network issue. You can download the MIDI file instead."]

/-- The Howl callbacks registered inline by `loadAudio` in the older page
revision: `onloaderror` raises the warning toast and builds the native
fallback inline, but `onplayerror` raises the terminal error toast
directly, without attempting any fallback. -/
def onPlayerEventV3 (s : PageState) (fullUrl : String) (e : PlayerEvent) :
    PageState × List Effect :=
  match e with
  | .onend => ({ s with isPlaying := false }, [])
  | .onload => (s, [])
  | .onloaderror =>
      (s, [Effect.toastWarning "Error loading audio. Trying alternative method...",
           Effect.nativeAudioCreated fullUrl])
  | .onplayerror => (s, showAudioErrorToastV3)

/-! ### ConversationSession: `sendChatMessage` -/

/-- Synchronous part of `sendChatMessage`: reject blank input, append the
provisional `(message, "...")` turn, clear the input, and issue the chat
request. -/
def sendChatMessageSync (s : PageState) : PageState × List Effect :=
  if trimL s.chatMessage.toList = [] then (s, [])
  else
    ({ s with
        chatHistory := s.chatHistory ++ [(s.chatMessage, "...")],
        chatMessage := "" },
     [Effect.chatRequestSent s.chatMessage])

/-- Success callback of the chat subscription: the local transcript is
replaced wholesale by the server-returned history. -/
def chatOnSuccess (s : PageState) (history : List (String × String)) : PageState :=
  { s with chatHistory := history }

/-- The error callback's transcript edit: if the last turn's user text
equals the message that was sent, overwrite its assistant text with the
error marker; otherwise leave the transcript unchanged. -/
def overwriteLastOnError (h : List (String × String)) (tempMessage : String) :
    List (String × String) :=
  match h.getLast? with
  | some (u, _) =>
      if u = tempMessage then h.dropLast ++ [(u, "Error: Failed to get response")] else h
  | none => h

/-- Error callback of the chat subscription. -/
def chatOnError (s : PageState) (tempMessage : String) : PageState :=
  { s with chatHistory := overwriteLastOnError s.chatHistory tempMessage }

/-- `sendChatMessage` for a send whose chat call settles with `outcome`:
the synchronous part followed by the matching subscription callback
(`tempMessage` is the closure-captured message text). -/
def sendChatMessage (s : PageState) (outcome : ChatOutcome) : PageState × List Effect :=
  if trimL s.chatMessage.toList = [] then (s, [])
  else
    let tempMessage := s.chatMessage
    let r := sendChatMessageSync s
    match outcome with
    | .success h => (chatOnSuccess r.1 h, r.2)
    | .failure => (chatOnError r.1 tempMessage, r.2)

/-! ### Observation predicates -/

/-- A verification-fetch outcome is a hard failure when the promise rejects
or the response is not `ok`. -/
def isHardFailure : FetchOutcome → Bool
  | .networkError => true
  | .response ok _ _ => !ok

/-- Effect observation: a Howl player was constructed. -/
def isPlayerCreated : Effect → Bool
  | .playerCreated _ => true
  | _ => false

/-- Effect observation: a native fallback `Audio` element was constructed. -/
def isNativeAudioCreated : Effect → Bool
  | .nativeAudioCreated _ => true
  | _ => false

/-- An effect list attempts the native-audio fallback. -/
def attemptsFallback (evs : List Effect) : Bool :=
  evs.any isNativeAudioCreated

/-- Effect observation: the terminal danger toast (with the Download-MIDI
recovery button) was raised. -/
def isTerminalErrorToast : Effect → Bool
  | .toastDangerWithMidiDownload _ => true
  | _ => false

/-- Effect observation: a player teardown action (stop or unload). -/
def isTeardownEffect : Effect → Bool
  | .playerStop => true
  | .playerUnload => true
  | _ => false

/-- Effect observation: a chat HTTP request was issued. -/
def isChatRequestSent : Effect → Bool
  | .chatRequestSent _ => true
  | _ => false

/-- Number of unconfirmed (in-flight placeholder) turns in a transcript. -/
def countUnconfirmed (h : List (String × String)) : Nat :=
  (h.filter (fun t => t.2 = "...")).length

/-! ### Helper lemmas -/

theorem startsWithL_nil (s : List Char) : startsWithL s [] = true := by
  cases s <;> rfl

theorem startsWithL_append (s t p : List Char) (h : startsWithL s p = true) :
    startsWithL (s ++ t) p = true := by
  induction p generalizing s with
  | nil => exact startsWithL_nil _
  | cons a ps ih =>
    cases s with
    | nil => simp [startsWithL] at h
    | cons b ss =>
      simp only [List.cons_append, startsWithL, Bool.and_eq_true] at h ⊢
      exact ⟨h.1, ih ss h.2⟩

theorem adjSlashCount_append (xs ys : List Char) :
    adjSlashCount (xs ++ ys)
      = adjSlashCount xs + adjSlashCount ys
        + (if xs.getLast? = some '/' ∧ ys.head? = some '/' then 1 else 0) := by
  induction xs with
  | nil => simp [adjSlashCount]
  | cons a xs ih =>
    cases xs with
    | nil =>
      cases ys with
      | nil => simp [adjSlashCount]
      | cons c t =>
        simp only [List.cons_append, List.nil_append, adjSlashCount, List.length_nil]
        by_cases h1 : a = '/' <;> by_cases h2 : c = '/' <;>
          (simp [adjSlashCount, h1, h2, List.getLast?, List.head?]; try omega)
    | cons b xs' =>
      simp only [List.cons_append] at ih ⊢
      simp only [adjSlashCount, ih, List.getLast?_cons_cons]
      omega

/-- Reduction of `getFileUrlL` at the localhost base for a non-empty
reference that is not treated as already absolute. -/
theorem getFileUrlL_base_eq (rel : List Char) (h1 : rel ≠ [])
    (h2 : startsWithL rel "http".toList = false) :
    getFileUrlL "http://localhost:8000/".toList rel
      = "http://localhost:8000".toList
          ++ (if startsWithL rel "/".toList then rel else '/' :: rel) := by
  have h2' : startsWithL rel ['h', 't', 't', 'p'] = false := h2
  unfold getFileUrlL
  rw [if_neg h1]
  rw [if_neg (by simp [h2'])]
  have he : endsWithL "http://localhost:8000/".toList "/".toList = true := by decide
  have hd : ("http://localhost:8000/".toList).dropLast = "http://localhost:8000".toList := by
    decide
  simp only [he, if_true, hd]

theorem startsWithL_ne_nil (u : List Char) (a : Char) (ps : List Char)
    (h : startsWithL u (a :: ps) = true) : u ≠ [] := by
  cases u with
  | nil => simp [startsWithL] at h
  | cons b ss => exact List.cons_ne_nil b ss

theorem startsWithL_slash (c : Char) (t : List Char) :
    startsWithL (c :: t) "/".toList = ('/' == c) := by
  show startsWithL (c :: t) ['/'] = _
  simp [startsWithL, startsWithL_nil]

/-- Properties of a URL of the form `base ++ z` where `z` has no adjacent
slash pair: it is absolute, its only double slash is the scheme separator,
and resolving it again returns it unchanged. -/
theorem resolvedUrl_props (z : List Char) (hzc : adjSlashCount z = 0) :
    startsWithL ("http://localhost:8000".toList ++ z) "http://".toList = true
    ∧ adjSlashCount ("http://localhost:8000".toList ++ z) = 1
    ∧ getFileUrlL "http://localhost:8000/".toList ("http://localhost:8000".toList ++ z)
        = "http://localhost:8000".toList ++ z := by
  have h4 : startsWithL ("http://localhost:8000".toList ++ z) "http".toList = true :=
    startsWithL_append _ z _ (by decide)
  have h2 : adjSlashCount ("http://localhost:8000".toList ++ z) = 1 := by
    rw [adjSlashCount_append]
    have ha : adjSlashCount ("http://localhost:8000".toList) = 1 := by decide
    have hl : ("http://localhost:8000".toList).getLast? = some '0' := by decide
    rw [ha, hl, hzc]
    simp
  refine ⟨startsWithL_append _ z _ (by decide), h2, ?_⟩
  have hne : ("http://localhost:8000".toList ++ z) ≠ [] := by
    have h0 : startsWithL ("http://localhost:8000".toList ++ z) ['h'] = true :=
      startsWithL_append _ z _ (by decide)
    exact startsWithL_ne_nil _ _ _ h0
  unfold getFileUrlL
  rw [if_neg hne]
  rw [if_pos h4]

/-- C4 is false as stated over all references: a relative reference
containing a double slash resolves to a URL with a double slash beyond the
scheme separator, and a reference beginning with the four characters
"http" (such as "httpx") is returned unchanged and is not absolute. -/
theorem c4_counterexample_resolver :
    (getFileUrlL "http://localhost:8000/".toList "audio//x.mp3".toList
        = "http://localhost:8000/audio//x.mp3".toList
      ∧ adjSlashCount ("http://localhost:8000/audio//x.mp3".toList) = 2)
    ∧ (getFileUrlL "http://localhost:8000/".toList "httpx".toList = "httpx".toList
      ∧ startsWithL "httpx".toList "http://".toList = false) := by
  refine ⟨⟨?_, ?_⟩, ?_, ?_⟩ <;> decide

/-- C4 (amended): for every non-empty reference that does not begin with
"http" (hence is not returned unchanged by the absolute-reference rule)
and itself contains no double slash, the URL resolved against base
"http://localhost:8000/" is absolute, contains no double slash other than
the scheme separator, and resolution is idempotent; and resolving
"/audio/ex1.mp3" yields exactly "http://localhost:8000/audio/ex1.mp3". -/
theorem c4_amended_resolver :
    (∀ rel : List Char, rel ≠ [] → startsWithL rel "http".toList = false →
      adjSlashCount rel = 0 →
      startsWithL (getFileUrlL "http://localhost:8000/".toList rel) "http://".toList = true
      ∧ adjSlashCount (getFileUrlL "http://localhost:8000/".toList rel) = 1
      ∧ getFileUrlL "http://localhost:8000/".toList
          (getFileUrlL "http://localhost:8000/".toList rel)
          = getFileUrlL "http://localhost:8000/".toList rel)
    ∧ getFileUrlL "http://localhost:8000/".toList "/audio/ex1.mp3".toList
        = "http://localhost:8000/audio/ex1.mp3".toList := by
  constructor
  · intro rel h1 h2 h3
    rw [getFileUrlL_base_eq rel h1 h2]
    have hz : adjSlashCount (if startsWithL rel "/".toList then rel else '/' :: rel) = 0 := by
      cases rel with
      | nil => exact absurd rfl h1
      | cons c t =>
        by_cases hc : c = '/'
        · subst hc
          have hs : startsWithL ('/' :: t) "/".toList = true := by
            rw [startsWithL_slash]; decide
          rw [if_pos hs]
          exact h3
        · have hbc : ('/' == c) = false := by
            cases hq : ('/' == c)
            · rfl
            · exact absurd (eq_of_beq hq).symm hc
          have hs : startsWithL (c :: t) "/".toList = false := by
            rw [startsWithL_slash]; exact hbc
          have hs' : startsWithL (c :: t) ['/'] = false := hs
          rw [if_neg (by simp [hs'])]
          show adjSlashCount ('/' :: c :: t) = 0
          simp [adjSlashCount, hc, h3]
    exact resolvedUrl_props _ hz
  · decide

/-- Witness for the amended C4 at the reference "/audio/ex1.mp3". -/
theorem c4_amended_resolver_witness :
    startsWithL (getFileUrlL "http://localhost:8000/".toList "/audio/ex1.mp3".toList)
        "http://".toList = true
    ∧ adjSlashCount (getFileUrlL "http://localhost:8000/".toList "/audio/ex1.mp3".toList) = 1
    ∧ getFileUrlL "http://localhost:8000/".toList
        (getFileUrlL "http://localhost:8000/".toList "/audio/ex1.mp3".toList)
        = getFileUrlL "http://localhost:8000/".toList "/audio/ex1.mp3".toList :=
  c4_amended_resolver.1 "/audio/ex1.mp3".toList (by decide) (by decide) (by decide)

/-- C5: the resolver maps the empty reference to the empty string (its
representation of the EmptyReference failure), not to an absolute URL; and
a playback start from the empty reference is terminal for the session: the
state is unchanged (no player is constructed, no fetch is issued) and the
only surfaced effect is the danger toast carrying the alternate-artifact
(MIDI) download action. -/
theorem c5_empty_reference_terminal (s : PageState) (outcome : FetchOutcome) :
    getFileUrl "" = ""
    ∧ startsWithL (getFileUrl "").toList "http".toList = false
    ∧ loadAudio s "" outcome = (s, showAudioErrorToast)
    ∧ showAudioErrorToast.all isTerminalErrorToast = true
    ∧ (loadAudio s "" outcome).2.any isPlayerCreated = false := by
  refine ⟨by decide, by decide, by simp [loadAudio], by decide, ?_⟩
  simp [loadAudio, showAudioErrorToast, isPlayerCreated]

/-- Witness for C5 at the initial page state and a rejected fetch. -/
theorem c5_empty_reference_terminal_witness :
    getFileUrl "" = ""
    ∧ startsWithL (getFileUrl "").toList "http".toList = false
    ∧ loadAudio initialState "" FetchOutcome.networkError = (initialState, showAudioErrorToast)
    ∧ showAudioErrorToast.all isTerminalErrorToast = true
    ∧ (loadAudio initialState "" FetchOutcome.networkError).2.any isPlayerCreated = false :=
  c5_empty_reference_terminal initialState FetchOutcome.networkError

/-- C10: starting playback with an empty resource reference while a
previous session's player still exists leaves the whole state — in
particular the previous player handle — untouched: the empty-reference
guard returns before the teardown branch, so no stop or unload effect is
emitted. -/
theorem c10_empty_url_leaves_player_untouched (s : PageState) (p : String)
    (outcome : FetchOutcome) (hp : s.audioPlayer = some p) :
    (loadAudio s "" outcome).1 = s
    ∧ (loadAudio s "" outcome).1.audioPlayer = some p
    ∧ (loadAudio s "" outcome).2.any isTeardownEffect = false := by
  refine ⟨by simp [loadAudio], ?_, ?_⟩
  · simp [loadAudio, hp]
  · simp [loadAudio, showAudioErrorToast, isTeardownEffect]

/-- Witness for C10 at a state holding a player handle. -/
theorem c10_empty_url_leaves_player_untouched_witness :
    ({ initialState with audioPlayer := some "howl" } : PageState).audioPlayer = some "howl"
    ∧ ((loadAudio { initialState with audioPlayer := some "howl" } "" FetchOutcome.networkError).1
        = { initialState with audioPlayer := some "howl" }
      ∧ (loadAudio { initialState with audioPlayer := some "howl" } ""
          FetchOutcome.networkError).1.audioPlayer = some "howl"
      ∧ (loadAudio { initialState with audioPlayer := some "howl" } ""
          FetchOutcome.networkError).2.any isTeardownEffect = false) :=
  ⟨rfl, c10_empty_url_leaves_player_untouched _ "howl" FetchOutcome.networkError rfl⟩

/-- C1: when the verification fetch of the resolved URL fails hard (the
response is not ok, or the promise rejects), no audio player exists at the
end of the playback start, no player-construction effect ever occurs, and
the danger toast offering the MIDI download is surfaced. -/
theorem c1_hard_verification_failure_no_player (s : PageState) (url : String)
    (outcome : FetchOutcome) (hne : url ≠ "") (hfail : isHardFailure outcome = true) :
    (loadAudio s url outcome).1.audioPlayer = none
    ∧ (loadAudio s url outcome).2.any isPlayerCreated = false
    ∧ (loadAudio s url outcome).2.any isTerminalErrorToast = true := by
  cases outcome with
  | networkError =>
    cases hap : s.audioPlayer with
    | none =>
      simp [loadAudio, loadAudioSync, loadAudioOnFetch, hne, hap, showAudioErrorToast,
        isPlayerCreated, isTerminalErrorToast]
    | some p =>
      simp [loadAudio, loadAudioSync, loadAudioOnFetch, hne, hap, showAudioErrorToast,
        isPlayerCreated, isTerminalErrorToast]
  | response ok ct cl =>
    have hok : ok = false := by simpa [isHardFailure] using hfail
    subst hok
    cases hap : s.audioPlayer with
    | none =>
      simp [loadAudio, loadAudioSync, loadAudioOnFetch, hne, hap, showAudioErrorToast,
        isPlayerCreated, isTerminalErrorToast]
    | some p =>
      simp [loadAudio, loadAudioSync, loadAudioOnFetch, hne, hap, showAudioErrorToast,
        isPlayerCreated, isTerminalErrorToast]

/-- Witness for C1: a playback start for "music/ex.mp3" whose verification
response is HTTP 404 (not ok). -/
theorem c1_hard_verification_failure_no_player_witness :
    (("music/ex.mp3" : String) ≠ ""
      ∧ isHardFailure (FetchOutcome.response false (some "text/html") (some 150)) = true)
    ∧ ((loadAudio initialState "music/ex.mp3"
          (FetchOutcome.response false (some "text/html") (some 150))).1.audioPlayer = none
      ∧ (loadAudio initialState "music/ex.mp3"
          (FetchOutcome.response false (some "text/html") (some 150))).2.any
            isPlayerCreated = false
      ∧ (loadAudio initialState "music/ex.mp3"
          (FetchOutcome.response false (some "text/html") (some 150))).2.any
            isTerminalErrorToast = true) :=
  ⟨⟨by decide, rfl⟩,
    c1_hard_verification_failure_no_player initialState "music/ex.mp3"
      (FetchOutcome.response false (some "text/html") (some 150)) (by decide) rfl⟩

/-- C2 fails as stated: in the older page revision present among the
sources, a runtime playback error (`onplayerror`) raises the terminal
danger toast directly without attempting the native-audio fallback. -/
theorem c2_counterexample_old_revision_playerror :
    attemptsFallback (onPlayerEventV3 initialState "u" PlayerEvent.onplayerror).2 = false
    ∧ (onPlayerEventV3 initialState "u" PlayerEvent.onplayerror).2.any
        isTerminalErrorToast = true := by
  refine ⟨?_, ?_⟩ <;> rfl

/-- C2 (amended): in the current page revision, every primary-player error
— a load error as well as a runtime playback error — attempts the
native-audio fallback and raises no terminal error toast in that step; in
the older revision only the load error attempts the fallback, while a
runtime playback error goes directly to the terminal error toast. -/
theorem c2_amended_fallback_on_primary_errors (s : PageState) (url : String)
    (e : PlayerEvent) (he : e = PlayerEvent.onloaderror ∨ e = PlayerEvent.onplayerror) :
    attemptsFallback (onPlayerEvent s url e).2 = true
    ∧ (onPlayerEvent s url e).2.any isTerminalErrorToast = false
    ∧ attemptsFallback (onPlayerEventV3 s url PlayerEvent.onloaderror).2 = true
    ∧ attemptsFallback (onPlayerEventV3 s url PlayerEvent.onplayerror).2 = false := by
  rcases he with h | h <;> subst h <;>
    simp [onPlayerEvent, onPlayerEventV3, tryNativeAudioFallback, attemptsFallback,
      isNativeAudioCreated, isTerminalErrorToast, showAudioErrorToastV3]

/-- Witness for the amended C2 at a load error. -/
theorem c2_amended_fallback_on_primary_errors_witness :
    attemptsFallback (onPlayerEvent initialState "u" PlayerEvent.onloaderror).2 = true
    ∧ (onPlayerEvent initialState "u" PlayerEvent.onloaderror).2.any
        isTerminalErrorToast = false
    ∧ attemptsFallback (onPlayerEventV3 initialState "u" PlayerEvent.onloaderror).2 = true
    ∧ attemptsFallback (onPlayerEventV3 initialState "u" PlayerEvent.onplayerror).2 = false :=
  c2_amended_fallback_on_primary_errors initialState "u" PlayerEvent.onloaderror (Or.inl rfl)

/-- C3 fails as stated: entering the fallback path does not tear down the
primary player handle — `tryNativeAudioFallback` leaves `audioPlayer`
unchanged and emits no stop or unload, so the Howl handle coexists with
the newly created native fallback player. -/
theorem c3_counterexample_fallback_keeps_primary :
    (tryNativeAudioFallback { initialState with audioPlayer := some "howl" } "u")
      = ({ initialState with audioPlayer := some "howl" },
          [Effect.nativeAudioCreated "u"])
    ∧ ([Effect.nativeAudioCreated "u"].any isTeardownEffect = false) := by
  refine ⟨?_, ?_⟩ <;> rfl

/-- C3 (amended): starting a new playback session with a non-empty
reference while a prior player exists first stops, unloads and clears that
player (momentarily zero players) and, after successful verification, ends
with exactly the one newly constructed player; but entering the fallback
path does not tear down the primary player handle: `audioPlayer` is left
unchanged and no teardown effect is emitted when the native fallback is
created. -/
theorem c3_amended_single_player_discipline (s : PageState) (p url : String)
    (hp : s.audioPlayer = some p) (hne : url ≠ "") :
    (loadAudioSync s url).1.audioPlayer = none
    ∧ (loadAudioSync s url).2.take 2 = [Effect.playerStop, Effect.playerUnload]
    ∧ (∀ ct cl, (loadAudio s url (FetchOutcome.response true ct cl)).1.audioPlayer
        = some (getFileUrl url))
    ∧ (tryNativeAudioFallback s url).1.audioPlayer = some p
    ∧ (tryNativeAudioFallback s url).2.any isTeardownEffect = false := by
  refine ⟨?_, ?_, ?_, ?_, ?_⟩
  · simp [loadAudioSync, hne, hp]
  · simp [loadAudioSync, hne, hp]
  · intro ct cl
    simp [loadAudio, loadAudioSync, loadAudioOnFetch, loadAudioVerified, createAudioPlayer,
      hne, hp]
  · simp [tryNativeAudioFallback, hp]
  · rfl

/-- Witness for the amended C3 at a state holding a player handle. -/
theorem c3_amended_single_player_discipline_witness :
    (({ initialState with audioPlayer := some "old" } : PageState).audioPlayer = some "old"
      ∧ ("music/ex.mp3" : String) ≠ "")
    ∧ ((loadAudioSync { initialState with audioPlayer := some "old" }
          "music/ex.mp3").1.audioPlayer = none
      ∧ (loadAudioSync { initialState with audioPlayer := some "old" } "music/ex.mp3").2.take 2
          = [Effect.playerStop, Effect.playerUnload]
      ∧ (∀ ct cl, (loadAudio { initialState with audioPlayer := some "old" } "music/ex.mp3"
            (FetchOutcome.response true ct cl)).1.audioPlayer
          = some (getFileUrl "music/ex.mp3"))
      ∧ (tryNativeAudioFallback { initialState with audioPlayer := some "old" }
          "music/ex.mp3").1.audioPlayer = some "old"
      ∧ (tryNativeAudioFallback { initialState with audioPlayer := some "old" }
          "music/ex.mp3").2.any isTeardownEffect = false) :=
  ⟨⟨rfl, by decide⟩,
    c3_amended_single_player_discipline { initialState with audioPlayer := some "old" }
      "old" "music/ex.mp3" rfl (by decide)⟩

/-- C6: a successful chat call replaces the local transcript wholesale by
the server-returned history, and the "C major scale?" scenario yields
exactly the server's one-element list. -/
theorem c6_success_replaces_transcript :
    (∀ (s : PageState) (h : List (String × String)),
      trimL s.chatMessage.toList ≠ [] →
      (sendChatMessage s (ChatOutcome.success h)).1.chatHistory = h)
    ∧ (sendChatMessage { initialState with chatMessage := "C major scale?" }
        (ChatOutcome.success [("C major scale?", "Sure, here\x27s how...")])).1.chatHistory
      = [("C major scale?", "Sure, here\x27s how...")] := by
  constructor
  · intro s h hne
    have hne' : trimL s.chatMessage.data ≠ [] := hne
    simp [sendChatMessage, sendChatMessageSync, chatOnSuccess, hne']
  · decide

/-- Witness for C6 at the scenario input. -/
theorem c6_success_replaces_transcript_witness :
    trimL ({ initialState with chatMessage := "C major scale?"} :
        PageState).chatMessage.toList ≠ []
    ∧ (sendChatMessage { initialState with chatMessage := "C major scale?" }
        (ChatOutcome.success [("C major scale?", "Sure, here\x27s how...")])).1.chatHistory
      = [("C major scale?", "Sure, here\x27s how...")] :=
  ⟨by decide,
    c6_success_replaces_transcript.1 { initialState with chatMessage := "C major scale?" }
      [("C major scale?", "Sure, here\x27s how...")] (by decide)⟩

/-- C7: a failed chat call overwrites the assistant text of the just-
appended turn (the most recent turn carrying the sent text) with the error
marker; every previously recorded turn is preserved, the transcript grows
by exactly one turn (nothing is deleted), and exactly one chat request was
issued (no automatic retry). -/
theorem c7_failure_marks_last_turn (s : PageState)
    (hne : trimL s.chatMessage.toList ≠ []) :
    (sendChatMessage s ChatOutcome.failure).1.chatHistory
      = s.chatHistory ++ [(s.chatMessage, "Error: Failed to get response")]
    ∧ (sendChatMessage s ChatOutcome.failure).1.chatHistory.length
      = s.chatHistory.length + 1
    ∧ ((sendChatMessage s ChatOutcome.failure).2.filter isChatRequestSent).length = 1 := by
  have hkey : overwriteLastOnError (s.chatHistory ++ [(s.chatMessage, "...")]) s.chatMessage
      = s.chatHistory ++ [(s.chatMessage, "Error: Failed to get response")] := by
    unfold overwriteLastOnError
    rw [List.getLast?_concat]
    simp [List.dropLast_concat]
  have hne' : trimL s.chatMessage.data ≠ [] := hne
  refine ⟨?_, ?_, ?_⟩
  · simp [sendChatMessage, sendChatMessageSync, chatOnError, hne', hkey]
  · simp [sendChatMessage, sendChatMessageSync, chatOnError, hne', hkey]
  · simp [sendChatMessage, sendChatMessageSync, hne', isChatRequestSent]

/-- Witness for C7 at a one-turn session sending "hi". -/
theorem c7_failure_marks_last_turn_witness :
    trimL ({ initialState with chatMessage := "hi" } : PageState).chatMessage.toList ≠ []
    ∧ ((sendChatMessage { initialState with chatMessage := "hi" }
          ChatOutcome.failure).1.chatHistory
        = ({ initialState with chatMessage := "hi" } : PageState).chatHistory
            ++ [("hi", "Error: Failed to get response")]
      ∧ (sendChatMessage { initialState with chatMessage := "hi" }
          ChatOutcome.failure).1.chatHistory.length
        = ({ initialState with chatMessage := "hi" } : PageState).chatHistory.length + 1
      ∧ ((sendChatMessage { initialState with chatMessage := "hi" }
          ChatOutcome.failure).2.filter isChatRequestSent).length = 1) :=
  ⟨by decide, c7_failure_marks_last_turn { initialState with chatMessage := "hi" } (by decide)⟩

/-- C8 fails as stated: nothing rejects or queues a second send issued
with fresh non-blank text while the first turn is still unconfirmed — the
second request is issued immediately and two placeholder (in-flight) turns
are simultaneously present in the transcript. -/
theorem c8_counterexample_interleaved_sends :
    countUnconfirmed
      (sendChatMessageSync
        { (sendChatMessageSync { initialState with chatMessage := "What is a scale?" }).1 with
            chatMessage := "And a chord?" }).1.chatHistory = 2
    ∧ (sendChatMessageSync
        { (sendChatMessageSync { initialState with chatMessage := "What is a scale?" }).1 with
            chatMessage := "And a chord?" }).2
      = [Effect.chatRequestSent "And a chord?"] := by
  refine ⟨?_, ?_⟩ <;> decide

/-- C8 (amended): the only guard is the blank-input check.  Because `send`
clears the input field, re-invoking it without typing anything is rejected
(no state change, no request); but a second send with fresh non-blank text
while the first turn is still unconfirmed is accepted: it issues a second
request at once and leaves two placeholder turns in the transcript. -/
theorem c8_amended_guard_only_rejects_blank (s : PageState) (m2 : String)
    (h1 : trimL s.chatMessage.toList ≠ []) (h2 : trimL m2.toList ≠ []) :
    sendChatMessageSync (sendChatMessageSync s).1 = ((sendChatMessageSync s).1, [])
    ∧ (sendChatMessageSync { (sendChatMessageSync s).1 with chatMessage := m2 }).1.chatHistory
        = s.chatHistory ++ [(s.chatMessage, "..."), (m2, "...")]
    ∧ (sendChatMessageSync { (sendChatMessageSync s).1 with chatMessage := m2 }).2
        = [Effect.chatRequestSent m2] := by
  have h1' : trimL s.chatMessage.data ≠ [] := h1
  have h2' : trimL m2.data ≠ [] := h2
  have h0 : trimL ("" : String).data = [] := by decide
  refine ⟨?_, ?_, ?_⟩
  · simp [sendChatMessageSync, h1', h0]
  · simp [sendChatMessageSync, h1', h2']
  · simp [sendChatMessageSync, h1', h2']

/-- Witness for the amended C8 with the two concrete questions. -/
theorem c8_amended_guard_only_rejects_blank_witness :
    (trimL ({ initialState with chatMessage := "What is a scale?" } :
        PageState).chatMessage.toList ≠ []
      ∧ trimL ("And a chord?" : String).toList ≠ [])
    ∧ (sendChatMessageSync
          (sendChatMessageSync { initialState with chatMessage := "What is a scale?" }).1
        = ((sendChatMessageSync { initialState with chatMessage := "What is a scale?" }).1, [])
      ∧ (sendChatMessageSync
          { (sendChatMessageSync { initialState with chatMessage := "What is a scale?" }).1 with
              chatMessage := "And a chord?" }).1.chatHistory
        = ({ initialState with chatMessage := "What is a scale?" } : PageState).chatHistory
            ++ [("What is a scale?", "..."), ("And a chord?", "...")]
      ∧ (sendChatMessageSync
          { (sendChatMessageSync { initialState with chatMessage := "What is a scale?" }).1 with
              chatMessage := "And a chord?" }).2
        = [Effect.chatRequestSent "And a chord?"]) :=
  ⟨⟨by decide, by decide⟩,
    c8_amended_guard_only_rejects_blank { initialState with chatMessage := "What is a scale?" }
      "And a chord?" (by decide) (by decide)⟩

/-- C9: a blank (empty or whitespace-only) input short-circuits `send`:
no effect — in particular no chat request — is emitted and the state,
including the transcript, is returned unchanged. -/
theorem c9_blank_input_noop (s : PageState) (outcome : ChatOutcome)
    (h : trimL s.chatMessage.toList = []) :
    sendChatMessage s outcome = (s, []) := by
  have h' : trimL s.chatMessage.data = [] := h
  simp [sendChatMessage, h']

/-- Witness for C9 at a whitespace-only input. -/
theorem c9_blank_input_noop_witness :
    trimL ({ initialState with chatMessage := "   " } : PageState).chatMessage.toList = []
    ∧ sendChatMessage { initialState with chatMessage := "   " } ChatOutcome.failure
      = ({ initialState with chatMessage := "   " }, []) :=
  ⟨by decide,
    c9_blank_input_noop { initialState with chatMessage := "   " } ChatOutcome.failure
      (by decide)⟩
